import Mathlib

/-!
Verification of the two Blender add-ons in this repository:
`focus_similar_fcurves.py` (operator `GRAPH_OT_focus_and_hide_fcurves`) and
`preview_world_to_render.py` (operator `WORLD_OT_copy_shading_hdri`).

The pure parts of both operators (the regex-based name-key derivation and the
show/hide partition of visible F-Curves, and the construction of the world
shader node graph) are embedded as executable Lean functions; host state
(F-Curve select flags, the scene world, reports, operator results) is passed
explicitly.
-/

/-- Report levels used by `self.report` in the sources. -/
inductive ReportLevel
  | INFO
  | WARNING
  | ERROR
deriving DecidableEq, Repr

/-- The outcome of an operator `execute`: the returned set, or an uncaught
Python exception propagating out of `execute`. -/
inductive ExecResult
  | FINISHED
  | CANCELLED
  | raised (exn : String)
deriving DecidableEq, Repr

namespace FocusFcurves

/-- An animation F-Curve as the operator sees it: a data path, a component
index and a select flag (`fcurve.data_path`, `fcurve.array_index`,
`fcurve.select` in the source).  The source never touches other fields. -/
structure FCurve where
  data_path : String
  array_index : Nat
  select : Bool
deriving DecidableEq, Repr

/-- Scan for the closing character `close`, as the lazy regex piece `.*?X`
does: succeed at the first occurrence of `close`, fail at a newline (`.` does
not match newlines) or at the end of the string.  Returns the remainder after
the closing character. -/
def findClose (close : Char) : List Char → Option (List Char)
  | [] => none
  | c :: rest =>
    if c = close then some rest
    else if c = '\n' then none
    else findClose close rest

/-- The opening characters of the alternation `\[.*?\]|\(.*?\)` and their
closing characters: `[` is closed by `]`, `(` by `)`. -/
def openClose (c : Char) : Option Char :=
  if c = '[' then some ']' else if c = '(' then some ')' else none

/-- Fuel-indexed worker for `stripBrackets`; the fuel (an upper bound on the
list length, strictly decreased by every deleted span) only makes the
recursion structural and never runs out when `l.length ≤ fuel`. -/
def stripBracketsFuel : Nat → List Char → List Char
  | _, [] => []
  | 0, _ => []
  | fuel + 1, c :: rest =>
    match openClose c with
    | none => c :: stripBracketsFuel fuel rest
    | some close =>
      match findClose close rest with
      | some rest2 => stripBracketsFuel fuel rest2
      | none => c :: stripBracketsFuel fuel rest

/-- `stripBrackets l` is `re.sub(r'\[.*?\]|\(.*?\)', '', l)` from the source:
scan left to right; at a `[` (resp. `(`), lazily match up to the first `]`
(resp. `)`) with no newline in between and delete the whole span; any other
character, or an opener with no reachable closer, is kept. -/
def stripBrackets (l : List Char) : List Char :=
  stripBracketsFuel l.length l

/-- The name format derived from a data path and an array index, as built by
the f-string `f"{re.sub(strip_pattern, '', fcurve.data_path)}[{fcurve.array_index}]"`. -/
def fcurveNameFormat (data_path : String) (array_index : Nat) : String :=
  String.mk (stripBrackets data_path.data) ++ "[" ++ Nat.repr array_index ++ "]"

/-- The derived key of an F-Curve. -/
def fcurveKey (fcurve : FCurve) : String :=
  fcurveNameFormat fcurve.data_path fcurve.array_index

/-- `target_fcurve_name_formats` from the source: the keys derived from the
selected F-Curves. -/
def target_fcurve_name_formats (selected : List FCurve) : List String :=
  selected.map fcurveKey

/-- `selectCurve` from the source: set the select flag of an F-Curve. -/
def selectCurve (fcurve : FCurve) (select : Bool) : FCurve :=
  { fcurve with select := select }

/-- The partition loop of `execute` (lines 56-64 of the source): walk the
visible F-Curves in order; a curve whose derived key is among the targets is
appended to `fcurves_to_show` and selected, any other is appended to
`fcurves_to_hide` and deselected.  Returns
`(fcurves_to_show, fcurves_to_hide, visible curves after the select writes)`;
the show/hide lists hold the curves as mutated (the Python lists alias the
mutated objects). -/
def scanVisible (targets : List String) : List FCurve → List FCurve × List FCurve × List FCurve
  | [] => ([], [], [])
  | fcurve :: rest =>
    let prev := scanVisible targets rest
    if fcurveKey fcurve ∈ targets then
      (selectCurve fcurve true :: prev.1, prev.2.1, selectCurve fcurve true :: prev.2.2)
    else
      (prev.1, selectCurve fcurve false :: prev.2.1, selectCurve fcurve false :: prev.2.2)

/-- The `fcurves_to_show` list of a run of the partition loop: the first
component of `scanVisible` on the keys derived from the selection. -/
def fcurves_to_show (selected visible : List FCurve) : List FCurve :=
  (scanVisible (target_fcurve_name_formats selected) visible).1

/-- The `fcurves_to_hide` list of a run of the partition loop: the second
component of `scanVisible` on the keys derived from the selection. -/
def fcurves_to_hide (selected visible : List FCurve) : List FCurve :=
  (scanVisible (target_fcurve_name_formats selected) visible).2.1

/-- The host state and host behaviour `execute` reads:
`context.selected_editable_fcurves`, `context.visible_fcurves`, whether
`context.screen.areas` holds a `GRAPH_EDITOR` area, the region types of that
area, and whether the `bpy.ops.graph` calls raise (`some msg` = they raise an
exception rendered as `msg`). -/
structure FocusContext where
  selected_editable_fcurves : List FCurve
  visible_fcurves : List FCurve
  has_graph_editor_area : Bool
  graph_area_regions : List String
  graph_ops_error : Option String
deriving DecidableEq, Repr

/-- What a run of the focus operator produced: the result, the reports in
order, the visible F-Curves after the select-flag writes, whether the
`reveal`/`hide(unselected=True)`/`view_all` sequence under `temp_override`
completed, and whether the `reveal(select=False)`/`view_all` pair of the
empty-selection branch completed. -/
structure FocusOutcome where
  result : ExecResult
  reports : List (ReportLevel × String)
  visible_after : List FCurve
  graph_ops_run : Bool
  reveal_all_run : Bool
deriving DecidableEq, Repr

/-- `GRAPH_OT_focus_and_hide_fcurves.execute`, embedded line by line:
empty selection → info report, reveal-all attempt, `CANCELLED`; otherwise
derive the target key list, abort with a warning when no F-Curve is visible,
partition the visible curves while writing their select flags, abort when
nothing matched, abort with a warning when no Graph Editor area exists,
raise `StopIteration` out of `next(...)` when the area has no `WINDOW`
region, catch and report a failure of the graph operators, else finish. -/
def execute (ctx : FocusContext) : FocusOutcome :=
  if ctx.selected_editable_fcurves.isEmpty then
    match ctx.graph_ops_error with
    | some e =>
      { result := .CANCELLED
        reports := [(.INFO, "No FCurve selected in the Graph Editor."),
                    (.ERROR, "Failed to call graph operators: " ++ e)]
        visible_after := ctx.visible_fcurves
        graph_ops_run := false
        reveal_all_run := false }
    | none =>
      { result := .CANCELLED
        reports := [(.INFO, "No FCurve selected in the Graph Editor.")]
        visible_after := ctx.visible_fcurves
        graph_ops_run := false
        reveal_all_run := true }
  else
    let targets := target_fcurve_name_formats ctx.selected_editable_fcurves
    let r1 := (ReportLevel.INFO,
      "Target F-Curve name formats: " ++ String.intercalate ", " targets)
    if ctx.visible_fcurves.isEmpty then
      { result := .CANCELLED
        reports := [r1, (.WARNING, "No F-Curves found in any action.")]
        visible_after := ctx.visible_fcurves
        graph_ops_run := false
        reveal_all_run := false }
    else
      let scanned := scanVisible targets ctx.visible_fcurves
      let fcurves_to_show := scanned.1
      let vis := scanned.2.2
      if fcurves_to_show.isEmpty then
        { result := .CANCELLED
          reports := [r1, (.INFO, "No matching F-Curves found across all actions.")]
          visible_after := vis
          graph_ops_run := false
          reveal_all_run := false }
      else if !ctx.has_graph_editor_area then
        { result := .CANCELLED
          reports := [r1, (.WARNING, "No Graph Editor area found")]
          visible_after := vis
          graph_ops_run := false
          reveal_all_run := false }
      else if !(ctx.graph_area_regions.contains "WINDOW") then
        { result := .raised "StopIteration"
          reports := [r1]
          visible_after := vis
          graph_ops_run := false
          reveal_all_run := false }
      else
        match ctx.graph_ops_error with
        | some e =>
          { result := .CANCELLED
            reports := [r1, (.ERROR, "Failed to call graph operators: " ++ e)]
            visible_after := vis
            graph_ops_run := false
            reveal_all_run := false }
        | none =>
          { result := .FINISHED
            reports := [r1, (.INFO, "Focused on " ++ Nat.repr fcurves_to_show.length
                              ++ " F-Curves and hid others.")]
            visible_after := vis
            graph_ops_run := true
            reveal_all_run := false }

end FocusFcurves

namespace PreviewWorld

/-- Shader node types created by the source (`nodes.new(type=...)`). -/
inductive NodeType
  | ShaderNodeTexEnvironment
  | ShaderNodeBackground
  | ShaderNodeOutputWorld
  | ShaderNodeTexCoord
  | ShaderNodeMapping
  | ShaderNodeMix
  | ShaderNodeTexNoise
  | ShaderNodeVectorMath
deriving DecidableEq, Repr

/-- A node socket is addressed either by name (`inputs['Color']`) or by
index (`inputs[5]`). -/
inductive SocketKey
  | byName (s : String)
  | byIndex (n : Nat)
deriving DecidableEq, Repr

/-- A socket default value the source writes: a scalar or a 3-vector. -/
inductive SockVal
  | scalar (q : Rat)
  | vec (x y z : Rat)
deriving DecidableEq, Repr

/-- A shader node with the fields the source sets.  `inputDefaults` records
the `inputs[...].default_value` writes, `image` the loaded image name. -/
structure ShaderNode where
  nodeType : NodeType
  location : Int × Int := (0, 0)
  label : String := ""
  data_type : Option String := none
  operation : Option String := none
  image : Option String := none
  inputDefaults : List (SocketKey × SockVal) := []
deriving DecidableEq, Repr

/-- A link created by `links.new(fromNode.outputs[s], toNode.inputs[t])`;
nodes are referenced by their creation index in `NodeGraph.nodes`. -/
structure NodeLink where
  fromNode : Nat
  fromSocket : SocketKey
  toNode : Nat
  toSocket : SocketKey
deriving DecidableEq, Repr

/-- `world.node_tree`: nodes in creation order and links in creation order. -/
structure NodeGraph where
  nodes : List ShaderNode
  links : List NodeLink
deriving DecidableEq, Repr

/-- A world data block as the source configures it. -/
structure World where
  name : String
  use_nodes : Bool
  node_tree : NodeGraph
deriving DecidableEq, Repr

/-- An entry of `bpy.context.preferences.studio_lights`. -/
structure StudioLight where
  name : String
  path : String
deriving DecidableEq, Repr

/-- An entry of `bpy.data.images`. -/
structure Image where
  name : String
  filepath : String
deriving DecidableEq, Repr

/-- The viewport shading fields the source reads
(`space_data.shading.studio_light`, `.studiolight_background_blur`,
`.studiolight_rotate_z`). -/
structure ShadingState where
  studio_light : String
  studiolight_background_blur : Rat
  studiolight_rotate_z : Rat
deriving DecidableEq, Repr

/-- The host state and host behaviour `execute` reads: the shading settings,
the studio-light preference list, which paths `os.path.exists` affirms, the
loaded images, the scene world before the call, and whether
`bpy.data.images.load` raises (`some msg` = it raises, rendered as `msg`). -/
structure PreviewContext where
  shading : ShadingState
  studio_lights : List StudioLight
  path_exists : List String
  images : List Image
  scene_world : Option String
  image_load_error : Option String
deriving DecidableEq, Repr

/-- What a run of the preview-world operator produced: the result, the
reports in order, the world data block it created (if any) in its final
state, and the scene world after the call. -/
structure PreviewOutcome where
  result : ExecResult
  reports : List (ReportLevel × String)
  created_world : Option World
  scene_world : Option String
deriving DecidableEq, Repr

/-- `get_studio_light_path` from the source: the path of the first studio
light with the given name, else `None`. -/
def get_studio_light_path (studio_lights : List StudioLight)
    (light_name : String) : Option String :=
  match studio_lights.find? (fun light => light.name = light_name) with
  | some light => some light.path
  | none => none

/-- `os.path.basename` on a POSIX path: the part after the last slash. -/
def basename (p : String) : String :=
  String.mk ((p.data.reverse.takeWhile (fun c => c ≠ '/')).reverse)

/-- The image-loading block of `execute` (source lines 67-79): reuse a loaded
image whose name is the path's basename and whose filepath matches, otherwise
call `bpy.data.images.load(path, check_existing=True)`, which may raise. -/
def loadImage (ctx : PreviewContext) (path : String) : Except String Image :=
  let image_name := basename path
  match ctx.images.find? (fun im => im.name = image_name) with
  | some im =>
    if im.filepath ≠ path then
      match ctx.image_load_error with
      | some e => Except.error e
      | none => Except.ok { name := image_name, filepath := path }
    else Except.ok im
  | none =>
    match ctx.image_load_error with
    | some e => Except.error e
    | none => Except.ok { name := image_name, filepath := path }

/-- The environment texture node as first created (source line 63), before
any image is assigned. -/
def envNodeBare : ShaderNode :=
  { nodeType := .ShaderNodeTexEnvironment, location := (-300, 0) }

/-- The node list of the fully built world, in creation order (source lines
63-154): environment texture, background, world output, texture coordinate,
mapping, vector-mix blur, noise texture, vector-math subtract.  The recorded
input defaults are the source's `default_value` writes: the blur factor and
the Z rotation copied from the viewport shading, the noise scale 30000, and
the subtract constant (0.5, 0.5, 0.5). -/
def builtNodes (shading : ShadingState) (image_name : String) : List ShaderNode :=
  [ { envNodeBare with image := some image_name },
    { nodeType := .ShaderNodeBackground, location := (0, 0) },
    { nodeType := .ShaderNodeOutputWorld, location := (200, 0) },
    { nodeType := .ShaderNodeTexCoord, location := (-1200, 0) },
    { nodeType := .ShaderNodeMapping, location := (-900, 0),
      inputDefaults := [(.byName "Rotation",
        .vec 0 0 shading.studiolight_rotate_z)] },
    { nodeType := .ShaderNodeMix, location := (-600, 0), label := "Blur",
      data_type := some "VECTOR",
      inputDefaults := [(.byIndex 0,
        .scalar shading.studiolight_background_blur)] },
    { nodeType := .ShaderNodeTexNoise, location := (-900, 300),
      inputDefaults := [(.byName "Scale", .scalar 30000)] },
    { nodeType := .ShaderNodeVectorMath, location := (-700, 300),
      operation := some "SUBTRACT",
      inputDefaults := [(.byIndex 1, .vec (1/2) (1/2) (1/2))] } ]

/-- The links of the fully built world, in creation order (source lines
89-151): env→background, background→output, texcoord→mapping, noise→subtract,
subtract→blur B (index 5), mapping→blur A (index 4), blur output (index 1)
→ env vector. -/
def builtLinks : List NodeLink :=
  [ { fromNode := 0, fromSocket := .byName "Color",
      toNode := 1, toSocket := .byName "Color" },
    { fromNode := 1, fromSocket := .byName "Background",
      toNode := 2, toSocket := .byName "Surface" },
    { fromNode := 3, fromSocket := .byName "Generated",
      toNode := 4, toSocket := .byName "Vector" },
    { fromNode := 6, fromSocket := .byName "Color",
      toNode := 7, toSocket := .byIndex 0 },
    { fromNode := 7, fromSocket := .byName "Vector",
      toNode := 5, toSocket := .byIndex 5 },
    { fromNode := 4, fromSocket := .byName "Vector",
      toNode := 5, toSocket := .byIndex 4 },
    { fromNode := 5, fromSocket := .byIndex 1,
      toNode := 0, toSocket := .byName "Vector" } ]

/-- `WORLD_OT_copy_shading_hdri.execute`, embedded line by line: resolve the
studio-light path and abort with an error when it is missing, empty (falsy)
or not on disk; create the world named `Preview <light>` and assign it as the
scene world; enable nodes and clear them; add the environment node; load the
image, catching a load failure as an error report with the partial world left
assigned; otherwise build the remaining nodes and links, copy the blur factor
and Z rotation from the shading state, report and finish. -/
def execute (ctx : PreviewContext) : PreviewOutcome :=
  let shading := ctx.shading
  let studio_light_name := shading.studio_light
  let noPath : PreviewOutcome :=
    { result := .CANCELLED
      reports := [(.ERROR,
        "Could not find path for studio light: " ++ studio_light_name)]
      created_world := none
      scene_world := ctx.scene_world }
  match get_studio_light_path ctx.studio_lights studio_light_name with
  | none => noPath
  | some studio_light_path =>
    if studio_light_path = "" ∨ studio_light_path ∉ ctx.path_exists then noPath
    else
      let world_name := "Preview " ++ studio_light_name
      match loadImage ctx studio_light_path with
      | Except.error e =>
        let halfWorld : World :=
          { name := world_name
            use_nodes := true
            node_tree := { nodes := [envNodeBare], links := [] } }
        { result := .CANCELLED
          reports := [(.ERROR, "Failed to load image: " ++ e)]
          created_world := some halfWorld
          scene_world := some world_name }
      | Except.ok image =>
        let full_world : World :=
          { name := world_name
            use_nodes := true
            node_tree := { nodes := builtNodes shading image.name
                           links := builtLinks } }
        { result := .FINISHED
          reports := [(.INFO, "Copied HDRI \x27" ++ studio_light_name
                        ++ "\x27 to World")]
          created_world := some full_world
          scene_world := some world_name }

end PreviewWorld

/-! ## Concrete inputs used by witnesses and counterexamples -/

namespace FocusFcurves

/-- The scenario curve `bone["A"].location`, index 0 (selected). -/
def boneA_loc0 : FCurve :=
  { data_path := "bone[\"A\"].location", array_index := 0, select := true }

/-- The scenario curve `bone["B"].location`, index 0. -/
def boneB_loc0 : FCurve :=
  { data_path := "bone[\"B\"].location", array_index := 0, select := false }

/-- The scenario curve `bone["A"].location`, index 1. -/
def boneA_loc1 : FCurve :=
  { data_path := "bone[\"A\"].location", array_index := 1, select := false }

/-- A context with a non-empty matching selection but no Graph Editor area:
the operator aborts after the select-flag writes. -/
def focusCtx_noArea : FocusContext :=
  { selected_editable_fcurves := [{ data_path := "bone[\"A\"].location", array_index := 0, select := true }]
    visible_fcurves := [{ data_path := "bone[\"A\"].location", array_index := 0, select := true },
                        { data_path := "pose.scale", array_index := 0, select := true }]
    has_graph_editor_area := false
    graph_area_regions := []
    graph_ops_error := none }

/-- A context whose Graph Editor area has no `WINDOW` region: the
`next(...)` region lookup raises `StopIteration` outside any `try`. -/
def focusCtx_noWindow : FocusContext :=
  { selected_editable_fcurves := [{ data_path := "bone[\"A\"].location", array_index := 0, select := true }]
    visible_fcurves := [{ data_path := "bone[\"A\"].location", array_index := 0, select := true }]
    has_graph_editor_area := true
    graph_area_regions := ["HEADER", "UI"]
    graph_ops_error := none }

/-- A context with an empty selection whose `bpy.ops.graph` calls raise. -/
def focusCtx_emptySel_opsFail : FocusContext :=
  { selected_editable_fcurves := []
    visible_fcurves := []
    has_graph_editor_area := true
    graph_area_regions := ["WINDOW"]
    graph_ops_error := some "boom" }

/-- A fully working context: matching selection, visible curves, Graph
Editor area with a `WINDOW` region, operators succeed. -/
def focusCtx_basic : FocusContext :=
  { selected_editable_fcurves := [{ data_path := "bone[\"A\"].location", array_index := 0, select := true }]
    visible_fcurves := [{ data_path := "bone[\"A\"].location", array_index := 0, select := false },
                        { data_path := "pose.scale", array_index := 0, select := true }]
    has_graph_editor_area := true
    graph_area_regions := ["WINDOW"]
    graph_ops_error := none }

end FocusFcurves

namespace PreviewWorld

/-- A context whose studio light is not in the preference list. -/
def previewCtx_noLight : PreviewContext :=
  { shading := { studio_light := "forest.exr", studiolight_background_blur := 0,
                 studiolight_rotate_z := 0 }
    studio_lights := []
    path_exists := []
    images := []
    scene_world := some "OldWorld"
    image_load_error := none }

/-- A context in which everything succeeds: the studio light resolves to an
existing path and the image loads. -/
def previewCtx_ok : PreviewContext :=
  { shading := { studio_light := "forest.exr", studiolight_background_blur := 1/4,
                 studiolight_rotate_z := 3/2 }
    studio_lights := [{ name := "forest.exr", path := "/lights/forest.exr" }]
    path_exists := ["/lights/forest.exr"]
    images := []
    scene_world := some "OldWorld"
    image_load_error := none }

/-- A context in which the studio light resolves but the image load raises. -/
def previewCtx_loadFail : PreviewContext :=
  { shading := { studio_light := "forest.exr", studiolight_background_blur := 0,
                 studiolight_rotate_z := 0 }
    studio_lights := [{ name := "forest.exr", path := "/lights/forest.exr" }]
    path_exists := ["/lights/forest.exr"]
    images := []
    scene_world := some "OldWorld"
    image_load_error := some "cannot load" }

end PreviewWorld

/-! ## Helper lemmas about the name-key derivation -/

namespace FocusFcurves

theorem findClose_length {close : Char} :
    ∀ {l rest : List Char}, findClose close l = some rest → rest.length < l.length := by
  intro l
  induction l with
  | nil => intro rest h; simp [findClose] at h
  | cons c cs ih =>
    intro rest h
    simp only [findClose] at h
    split at h
    · cases h
      simp
    · split at h
      · cases h
      · exact Nat.lt_succ_of_lt (ih h)

/-- The fuel is irrelevant as long as it bounds the list length. -/
theorem stripBracketsFuel_congr :
    ∀ (f₁ : Nat) (l : List Char) (f₂ : Nat), l.length ≤ f₁ → l.length ≤ f₂ →
      stripBracketsFuel f₁ l = stripBracketsFuel f₂ l := by
  intro f₁
  induction f₁ with
  | zero =>
    intro l f₂ h₁ _
    have : l = [] := List.length_eq_zero.mp (Nat.le_zero.mp h₁)
    subst this
    cases f₂ <;> rfl
  | succ a ih =>
    intro l f₂ h₁ h₂
    cases l with
    | nil => cases f₂ <;> rfl
    | cons c rest =>
      cases f₂ with
      | zero => simp at h₂
      | succ b =>
        simp only [List.length_cons, Nat.succ_le_succ_iff] at h₁ h₂
        cases hoc : openClose c with
        | none =>
          simp only [stripBracketsFuel, hoc]
          rw [ih rest b h₁ h₂]
        | some close =>
          cases hfc : findClose close rest with
          | none =>
            simp only [stripBracketsFuel, hoc, hfc]
            rw [ih rest b h₁ h₂]
          | some rest2 =>
            have hlt := findClose_length hfc
            simp only [stripBracketsFuel, hoc, hfc]
            exact ih rest2 b (Nat.le_of_lt (Nat.lt_of_lt_of_le hlt h₁))
              (Nat.le_of_lt (Nat.lt_of_lt_of_le hlt h₂))

theorem stripBrackets_nil : stripBrackets [] = [] := rfl

/-- Unfolding `stripBrackets` on a non-opening character. -/
theorem stripBrackets_cons_of_none {c : Char} (rest : List Char)
    (h : openClose c = none) :
    stripBrackets (c :: rest) = c :: stripBrackets rest := by
  simp only [stripBrackets, List.length_cons, stripBracketsFuel, h]

/-- Unfolding `stripBrackets` on an opener whose closer is found: the whole
span through the closer is deleted. -/
theorem stripBrackets_cons_of_close {c close : Char} {rest rest2 : List Char}
    (h : openClose c = some close) (h2 : findClose close rest = some rest2) :
    stripBrackets (c :: rest) = stripBrackets rest2 := by
  simp only [stripBrackets, List.length_cons, stripBracketsFuel, h, h2]
  exact stripBracketsFuel_congr rest.length rest2 rest2.length
    (Nat.le_of_lt (findClose_length h2)) (Nat.le_refl _)

/-- A character is kept by a strip step exactly when it opens no bracket. -/
theorem openClose_eq_none_iff {c : Char} :
    openClose c = none ↔ c ≠ '[' ∧ c ≠ '(' := by
  unfold openClose
  split
  · rename_i h
    simp [h]
  · split
    · rename_i h2
      simp [h2]
    · rename_i h h2
      simp [h, h2]

/-- Stripping distributes over a prefix that keeps every character. -/
theorem stripBrackets_clean_append {l : List Char} (m : List Char)
    (h : ∀ c ∈ l, openClose c = none) :
    stripBrackets (l ++ m) = l ++ stripBrackets m := by
  induction l with
  | nil => simp
  | cons c cs ih =>
    have hc : openClose c = none := h c (List.mem_cons_self c cs)
    rw [List.cons_append, stripBrackets_cons_of_none _ hc,
      ih (fun d hd => h d (List.mem_cons_of_mem c hd)), List.cons_append]

/-- `findClose` jumps exactly to a closer appended after characters that are
neither the closer nor a newline. -/
theorem findClose_append {close : Char} {d : List Char} (rest : List Char)
    (h : ∀ c ∈ d, c ≠ close ∧ c ≠ '\n') :
    findClose close (d ++ close :: rest) = some rest := by
  induction d with
  | nil => simp [findClose]
  | cons c cs ih =>
    have hc := h c (List.mem_cons_self c cs)
    rw [List.cons_append]
    simp only [findClose, if_neg hc.1, if_neg hc.2]
    exact ih (fun d hd => h d (List.mem_cons_of_mem c hd))

/-- Every character of the decimal representation of a natural number is a
digit. -/
theorem toDigitsCore_isDigit :
    ∀ (fuel n : Nat) (acc : List Char), (∀ c ∈ acc, c.isDigit = true) →
      ∀ c ∈ Nat.toDigitsCore 10 fuel n acc, c.isDigit = true := by
  have hd : ∀ m : Nat, m < 10 → (Nat.digitChar m).isDigit = true := by decide
  intro fuel
  induction fuel with
  | zero => intro n acc hacc c hc; exact hacc c hc
  | succ f ih =>
    intro n acc hacc c hc
    simp only [Nat.toDigitsCore] at hc
    have hmod : (Nat.digitChar (n % 10)).isDigit = true :=
      hd _ (Nat.mod_lt _ (by norm_num))
    split at hc
    · rcases List.mem_cons.mp hc with h | h
      · subst h; exact hmod
      · exact hacc c h
    · refine ih (n / 10) _ ?_ c hc
      intro d hdm
      rcases List.mem_cons.mp hdm with h | h
      · subst h; exact hmod
      · exact hacc d h

theorem repr_chars_isDigit (n : Nat) : ∀ c ∈ (Nat.repr n).data, c.isDigit = true := by
  intro c hc
  exact toDigitsCore_isDigit (n + 1) n [] (by simp) c hc

/-- Digits are none of the characters the strip scan treats specially. -/
theorem isDigit_not_special {c : Char} (h : c.isDigit = true) :
    c ≠ ']' ∧ c ≠ '\n' ∧ c ≠ '[' ∧ c ≠ '(' := by
  refine ⟨fun he => ?_, fun he => ?_, fun he => ?_, fun he => ?_⟩ <;>
    (subst he; exact absurd h (by decide))

/-- Setting the select flag leaves the derived key unchanged. -/
theorem fcurveKey_selectCurve (f : FCurve) (b : Bool) :
    fcurveKey (selectCurve f b) = fcurveKey f := rfl

/-- Unfolding the partition scan on a matching curve. -/
theorem scanVisible_cons_mem (t : List String) (f : FCurve) (rest : List FCurve)
    (h : fcurveKey f ∈ t) :
    scanVisible t (f :: rest)
      = (selectCurve f true :: (scanVisible t rest).1,
         (scanVisible t rest).2.1,
         selectCurve f true :: (scanVisible t rest).2.2) := by
  simp [scanVisible, h]

/-- Unfolding the partition scan on a non-matching curve. -/
theorem scanVisible_cons_not_mem (t : List String) (f : FCurve) (rest : List FCurve)
    (h : fcurveKey f ∉ t) :
    scanVisible t (f :: rest)
      = ((scanVisible t rest).1,
         selectCurve f false :: (scanVisible t rest).2.1,
         selectCurve f false :: (scanVisible t rest).2.2) := by
  simp [scanVisible, h]

/-- Every curve of the show list has its key among the targets. -/
theorem scanVisible_fst_keys (t : List String) :
    ∀ (visible : List FCurve), ∀ g ∈ (scanVisible t visible).1, fcurveKey g ∈ t := by
  intro visible
  induction visible with
  | nil => intro g hg; simp [scanVisible] at hg
  | cons f rest ih =>
    intro g hg
    by_cases hkey : fcurveKey f ∈ t
    · rw [scanVisible_cons_mem t f rest hkey] at hg
      rcases List.mem_cons.mp hg with h | h
      · subst h; exact hkey
      · exact ih g h
    · rw [scanVisible_cons_not_mem t f rest hkey] at hg
      exact ih g hg

/-- No curve of the hide list has its key among the targets. -/
theorem scanVisible_snd_keys (t : List String) :
    ∀ (visible : List FCurve), ∀ g ∈ (scanVisible t visible).2.1, fcurveKey g ∉ t := by
  intro visible
  induction visible with
  | nil => intro g hg; simp [scanVisible] at hg
  | cons f rest ih =>
    intro g hg
    by_cases hkey : fcurveKey f ∈ t
    · rw [scanVisible_cons_mem t f rest hkey] at hg
      exact ih g hg
    · rw [scanVisible_cons_not_mem t f rest hkey] at hg
      rcases List.mem_cons.mp hg with h | h
      · subst h; exact hkey
      · exact ih g h

/-- A visible curve with a matching key lands (selected) in the show list. -/
theorem scanVisible_mem_fst (t : List String) :
    ∀ (visible : List FCurve), ∀ f ∈ visible, fcurveKey f ∈ t →
      selectCurve f true ∈ (scanVisible t visible).1 := by
  intro visible
  induction visible with
  | nil => intro f hf; simp at hf
  | cons g rest ih =>
    intro f hf hkey
    rcases List.mem_cons.mp hf with h | h
    · subst h
      rw [scanVisible_cons_mem t f rest hkey]
      exact List.mem_cons_self _ _
    · by_cases hg : fcurveKey g ∈ t
      · rw [scanVisible_cons_mem t g rest hg]
        exact List.mem_cons_of_mem _ (ih f h hkey)
      · rw [scanVisible_cons_not_mem t g rest hg]
        exact ih f h hkey

/-- A visible curve with a non-matching key lands (deselected) in the hide
list. -/
theorem scanVisible_mem_snd (t : List String) :
    ∀ (visible : List FCurve), ∀ f ∈ visible, fcurveKey f ∉ t →
      selectCurve f false ∈ (scanVisible t visible).2.1 := by
  intro visible
  induction visible with
  | nil => intro f hf; simp at hf
  | cons g rest ih =>
    intro f hf hkey
    rcases List.mem_cons.mp hf with h | h
    · subst h
      rw [scanVisible_cons_not_mem t f rest hkey]
      exact List.mem_cons_self _ _
    · by_cases hg : fcurveKey g ∈ t
      · rw [scanVisible_cons_mem t g rest hg]
        exact ih f h hkey
      · rw [scanVisible_cons_not_mem t g rest hg]
        exact List.mem_cons_of_mem _ (ih f h hkey)

/-- Show and hide lists together are a permutation of the visible curves
with their select flags rewritten. -/
theorem scanVisible_perm (t : List String) :
    ∀ (visible : List FCurve),
      ((scanVisible t visible).1 ++ (scanVisible t visible).2.1).Perm
        (visible.map (fun f => selectCurve f (decide (fcurveKey f ∈ t)))) := by
  intro visible
  induction visible with
  | nil => simp [scanVisible]
  | cons f rest ih =>
    by_cases hkey : fcurveKey f ∈ t
    · rw [scanVisible_cons_mem t f rest hkey]
      simp only [List.map_cons, decide_eq_true hkey, List.cons_append]
      exact ih.cons _
    · rw [scanVisible_cons_not_mem t f rest hkey]
      simp only [List.map_cons, decide_eq_false hkey]
      exact List.perm_middle.trans (ih.cons _)

/-- The visible curves after the scan: each select flag is exactly the
membership of the curve's key among the targets. -/
theorem scanVisible_vis (t : List String) :
    ∀ (visible : List FCurve),
      (scanVisible t visible).2.2
        = visible.map (fun f => selectCurve f (decide (fcurveKey f ∈ t))) := by
  intro visible
  induction visible with
  | nil => simp [scanVisible]
  | cons f rest ih =>
    by_cases hkey : fcurveKey f ∈ t
    · rw [scanVisible_cons_mem t f rest hkey]
      simp only [List.map_cons, decide_eq_true hkey, ih]
    · rw [scanVisible_cons_not_mem t f rest hkey]
      simp only [List.map_cons, decide_eq_false hkey, ih]

/-- The character list of a derived name format. -/
theorem fcurveNameFormat_data (p : String) (i : Nat) :
    (fcurveNameFormat p i).data
      = stripBrackets p.data ++ '[' :: ((Nat.repr i).data ++ [']']) := by
  simp [fcurveNameFormat, String.data_append]

/-- Stripping a derived name format strips the underlying path and deletes
the appended `[index]` whole. -/
theorem stripBrackets_nameFormat (p : String) (i : Nat)
    (hp : ∀ c ∈ stripBrackets p.data, openClose c = none) :
    stripBrackets (fcurveNameFormat p i).data = stripBrackets p.data := by
  rw [fcurveNameFormat_data, stripBrackets_clean_append _ hp]
  have hdig : ∀ c ∈ (Nat.repr i).data, c ≠ ']' ∧ c ≠ '\n' := by
    intro c hc
    have := isDigit_not_special (repr_chars_isDigit i c hc)
    exact ⟨this.1, this.2.1⟩
  have hfc : findClose ']' ((Nat.repr i).data ++ [']']) = some [] :=
    findClose_append [] hdig
  rw [stripBrackets_cons_of_close (by rfl) hfc, stripBrackets_nil, List.append_nil]

end FocusFcurves

/-! ## Claim theorems -/

namespace FocusFcurves

/-- C1: for every selection (in particular every non-empty one) and every
set of visible F-Curves, the focus operator's partition pass sends every
visible curve whose derived key is among the keys derived from the selection
into the show partition and every other visible curve into the hide
partition; the two partitions are disjoint and together cover exactly the
visible set (with the select flags the pass writes). -/
theorem C1_focus_partition (selected visible : List FCurve) :
    (∀ f ∈ visible, fcurveKey f ∈ target_fcurve_name_formats selected →
        selectCurve f true ∈ fcurves_to_show selected visible)
    ∧ (∀ f ∈ visible, fcurveKey f ∉ target_fcurve_name_formats selected →
        selectCurve f false ∈ fcurves_to_hide selected visible)
    ∧ (∀ g ∈ fcurves_to_show selected visible,
        fcurveKey g ∈ target_fcurve_name_formats selected)
    ∧ (∀ g ∈ fcurves_to_hide selected visible,
        fcurveKey g ∉ target_fcurve_name_formats selected)
    ∧ (∀ g ∈ fcurves_to_show selected visible, g ∉ fcurves_to_hide selected visible)
    ∧ (fcurves_to_show selected visible ++ fcurves_to_hide selected visible).Perm
        (visible.map (fun f => selectCurve f
          (decide (fcurveKey f ∈ target_fcurve_name_formats selected)))) := by
  refine ⟨?_, ?_, ?_, ?_, ?_, ?_⟩
  · exact fun f hf hk => scanVisible_mem_fst _ visible f hf hk
  · exact fun f hf hk => scanVisible_mem_snd _ visible f hf hk
  · exact fun g hg => scanVisible_fst_keys _ visible g hg
  · exact fun g hg => scanVisible_snd_keys _ visible g hg
  · intro g hg hg2
    exact scanVisible_snd_keys _ visible g hg2 (scanVisible_fst_keys _ visible g hg)
  · exact scanVisible_perm _ visible

/-- C1 witness: the partition cover evaluated on the concrete scenario
selection and visible set. -/
theorem C1_witness :
    (fcurves_to_show [boneA_loc0] [boneA_loc0, boneB_loc0, boneA_loc1]
        ++ fcurves_to_hide [boneA_loc0] [boneA_loc0, boneB_loc0, boneA_loc1]).Perm
      ([boneA_loc0, boneB_loc0, boneA_loc1].map (fun f => selectCurve f
        (decide (fcurveKey f ∈ target_fcurve_name_formats [boneA_loc0])))) :=
  (C1_focus_partition [boneA_loc0] [boneA_loc0, boneB_loc0, boneA_loc1]).2.2.2.2.2

/-- C2: the name-key derivation equates `pose.bones["Arm"].location` and
`pose.bones["Leg"].location` at equal array index 0, and distinguishes array
indices 0 and 1 on the same data path. -/
theorem C2_name_key_examples :
    fcurveKey { data_path := "pose.bones[\"Arm\"].location", array_index := 0, select := true }
      = fcurveKey { data_path := "pose.bones[\"Leg\"].location", array_index := 0, select := true }
    ∧ fcurveKey { data_path := "pose.bones[\"Arm\"].location", array_index := 0, select := true }
      ≠ fcurveKey { data_path := "pose.bones[\"Arm\"].location", array_index := 1, select := true } := by
  decide

/-- C3 counterexample: the path `a[b]c[` does contain a bracketed substring
(stripping changes it), yet the derivation is not idempotent on it: the
first key is `ac[[0]`, whose dangling `[` swallows the appended `[0]` on the
second pass, giving `ac[0]`. -/
theorem C3_counterexample :
    stripBrackets ("a[b]c[".data) ≠ "a[b]c[".data
    ∧ fcurveNameFormat (fcurveNameFormat "a[b]c[" 0) 0 ≠ fcurveNameFormat "a[b]c[" 0 := by
  decide

/-- C3 amended: the derivation is idempotent on every path whose stripped
form contains no leftover opening bracket or parenthesis (in particular on
every path whose bracketed/parenthesized groups are well formed, such as
`pose.bones["Arm"].location`). -/
theorem C3_idempotent_of_clean (p : String) (i : Nat)
    (hp : ∀ c ∈ stripBrackets p.data, c ≠ '[' ∧ c ≠ '(') :
    fcurveNameFormat (fcurveNameFormat p i) i = fcurveNameFormat p i := by
  have hp2 : ∀ c ∈ stripBrackets p.data, openClose c = none :=
    fun c hc => openClose_eq_none_iff.mpr (hp c hc)
  have h := stripBrackets_nameFormat p i hp2
  calc fcurveNameFormat (fcurveNameFormat p i) i
      = String.mk (stripBrackets (fcurveNameFormat p i).data)
          ++ "[" ++ Nat.repr i ++ "]" := rfl
    _ = String.mk (stripBrackets p.data) ++ "[" ++ Nat.repr i ++ "]" := by rw [h]
    _ = fcurveNameFormat p i := rfl

/-- C3 witness: idempotence evaluated on the spec's example path at
index 7. -/
theorem C3_witness :
    fcurveNameFormat (fcurveNameFormat "pose.bones[\"Arm\"].location" 7) 7
      = fcurveNameFormat "pose.bones[\"Arm\"].location" 7 :=
  C3_idempotent_of_clean "pose.bones[\"Arm\"].location" 7 (by decide)

/-- C4: in the concrete scenario (selection `bone["A"].location[0]`, visible
set additionally containing `bone["B"].location[0]` and
`bone["A"].location[1]`), the show partition is exactly the two index-0
location curves and the hide partition exactly the index-1 curve. -/
theorem C4_scenario :
    fcurves_to_show [boneA_loc0] [boneA_loc0, boneB_loc0, boneA_loc1]
      = [selectCurve boneA_loc0 true, selectCurve boneB_loc0 true]
    ∧ fcurves_to_hide [boneA_loc0] [boneA_loc0, boneB_loc0, boneA_loc1]
      = [selectCurve boneA_loc1 false] := by
  decide

end FocusFcurves

namespace FocusFcurves

/-- Every path through the focus operator issues at least one report. -/
theorem focus_always_reports (ctx : FocusContext) : (execute ctx).reports ≠ [] := by
  simp only [execute]
  (repeat' split) <;> simp

/-- With a non-empty selection and visible set, `visible_after` is the scan
output whatever happens afterwards. -/
theorem execute_visible_after_eq (ctx : FocusContext)
    (hsel : ctx.selected_editable_fcurves ≠ [])
    (hvis : ctx.visible_fcurves ≠ []) :
    (execute ctx).visible_after
      = (scanVisible (target_fcurve_name_formats ctx.selected_editable_fcurves)
          ctx.visible_fcurves).2.2 := by
  obtain ⟨a, as, hs⟩ := List.exists_cons_of_ne_nil hsel
  obtain ⟨b, bs, hv⟩ := List.exists_cons_of_ne_nil hvis
  simp only [execute, hs, hv, List.isEmpty_cons]
  simp only [Bool.false_eq_true, if_false]
  (repeat' split) <;> rfl

/-- The no-match and no-area aborts happen after the scan and before any
visibility operator runs. -/
theorem execute_abort_early (ctx : FocusContext)
    (hsel : ctx.selected_editable_fcurves ≠ [])
    (hvis : ctx.visible_fcurves ≠ [])
    (habort : fcurves_to_show ctx.selected_editable_fcurves ctx.visible_fcurves = []
      ∨ ctx.has_graph_editor_area = false) :
    (execute ctx).result = ExecResult.CANCELLED
    ∧ (execute ctx).graph_ops_run = false
    ∧ (execute ctx).reveal_all_run = false := by
  obtain ⟨a, as, hs⟩ := List.exists_cons_of_ne_nil hsel
  obtain ⟨b, bs, hv⟩ := List.exists_cons_of_ne_nil hvis
  rw [fcurves_to_show, hs, hv] at habort
  simp only [execute, hs, hv, List.isEmpty_cons]
  simp only [Bool.false_eq_true, if_false]
  rcases habort with h1 | h2
  · simp [h1]
  · by_cases h1 : (scanVisible (target_fcurve_name_formats (a :: as)) (b :: bs)).1 = []
    · simp [h1]
    · simp [h1, h2, List.isEmpty_eq_false_iff_exists_mem]

/-- An exception of the empty-selection reveal-all block is caught and
reported. -/
theorem focus_opsfail_caught_empty (ctx : FocusContext) (e : String)
    (hsel : ctx.selected_editable_fcurves = [])
    (hoe : ctx.graph_ops_error = some e) :
    (execute ctx).result = ExecResult.CANCELLED
    ∧ (ReportLevel.ERROR, "Failed to call graph operators: " ++ e)
        ∈ (execute ctx).reports := by
  simp [execute, hsel, hoe]

/-- An exception of the `temp_override` operator block is caught and
reported. -/
theorem focus_opsfail_caught_full (ctx : FocusContext) (e : String)
    (hsel : ctx.selected_editable_fcurves ≠ [])
    (hvis : ctx.visible_fcurves ≠ [])
    (hshow : fcurves_to_show ctx.selected_editable_fcurves ctx.visible_fcurves ≠ [])
    (harea : ctx.has_graph_editor_area = true)
    (hwin : ctx.graph_area_regions.contains "WINDOW" = true)
    (hoe : ctx.graph_ops_error = some e) :
    (execute ctx).result = ExecResult.CANCELLED
    ∧ (ReportLevel.ERROR, "Failed to call graph operators: " ++ e)
        ∈ (execute ctx).reports := by
  obtain ⟨a, as, hs⟩ := List.exists_cons_of_ne_nil hsel
  obtain ⟨b, bs, hv⟩ := List.exists_cons_of_ne_nil hvis
  rw [fcurves_to_show, hs, hv] at hshow
  have hwin2 : "WINDOW" ∈ ctx.graph_area_regions := by simpa using hwin
  simp only [execute, hs, hv, List.isEmpty_cons, Bool.false_eq_true, if_false]
  simp [hshow, harea, hwin2, hoe, List.isEmpty_iff]

/-- A missing Graph Editor area is reported as a warning and aborts. -/
theorem focus_noarea_warns (ctx : FocusContext)
    (hsel : ctx.selected_editable_fcurves ≠ [])
    (hvis : ctx.visible_fcurves ≠ [])
    (hshow : fcurves_to_show ctx.selected_editable_fcurves ctx.visible_fcurves ≠ [])
    (harea : ctx.has_graph_editor_area = false) :
    (execute ctx).result = ExecResult.CANCELLED
    ∧ (ReportLevel.WARNING, "No Graph Editor area found") ∈ (execute ctx).reports := by
  obtain ⟨a, as, hs⟩ := List.exists_cons_of_ne_nil hsel
  obtain ⟨b, bs, hv⟩ := List.exists_cons_of_ne_nil hvis
  rw [fcurves_to_show, hs, hv] at hshow
  simp only [execute, hs, hv, List.isEmpty_cons, Bool.false_eq_true, if_false]
  simp [hshow, harea, List.isEmpty_iff]

/-- C9: with a non-empty selection and non-empty visible set, the scan
rewrites every visible curve's select flag to exactly the membership of its
derived key among the target keys, and this happens even on the runs that
abort afterwards (no matching curves, or no Graph Editor area), where no
visibility operator runs. -/
theorem C9_select_flags_written (ctx : FocusContext)
    (hsel : ctx.selected_editable_fcurves ≠ [])
    (hvis : ctx.visible_fcurves ≠ []) :
    (execute ctx).visible_after
      = ctx.visible_fcurves.map (fun f => selectCurve f
          (decide (fcurveKey f ∈ target_fcurve_name_formats ctx.selected_editable_fcurves)))
    ∧ ((fcurves_to_show ctx.selected_editable_fcurves ctx.visible_fcurves = []
          ∨ ctx.has_graph_editor_area = false) →
        (execute ctx).result = ExecResult.CANCELLED
        ∧ (execute ctx).graph_ops_run = false
        ∧ (execute ctx).reveal_all_run = false) := by
  constructor
  · rw [execute_visible_after_eq ctx hsel hvis, scanVisible_vis]
  · exact execute_abort_early ctx hsel hvis

/-- C9 witness: the select flags written by a concrete run. -/
theorem C9_witness :
    (execute focusCtx_basic).visible_after
      = focusCtx_basic.visible_fcurves.map (fun f => selectCurve f
          (decide (fcurveKey f
            ∈ target_fcurve_name_formats focusCtx_basic.selected_editable_fcurves))) :=
  (C9_select_flags_written focusCtx_basic (by decide) (by decide)).1

end FocusFcurves

namespace PreviewWorld

/-- Every path through the preview-world operator issues at least one
report. -/
theorem preview_always_reports (ctx : PreviewContext) : (execute ctx).reports ≠ [] := by
  simp only [execute]
  (repeat' split) <;> simp

/-- An unresolvable (missing, falsy or non-existing) studio-light path is
reported as an error and aborts before any world is created. -/
theorem preview_nopath_errors (ctx : PreviewContext)
    (h : ∀ p, get_studio_light_path ctx.studio_lights ctx.shading.studio_light = some p →
        p = "" ∨ p ∉ ctx.path_exists) :
    (execute ctx).result = ExecResult.CANCELLED
    ∧ (execute ctx).reports
        = [(ReportLevel.ERROR,
            "Could not find path for studio light: " ++ ctx.shading.studio_light)]
    ∧ (execute ctx).scene_world = ctx.scene_world
    ∧ (execute ctx).created_world = none := by
  cases hg : get_studio_light_path ctx.studio_lights ctx.shading.studio_light with
  | none => simp [execute, hg]
  | some p =>
    have hp := h p hg
    simp only [execute, hg, if_pos hp]
    exact ⟨trivial, trivial, trivial, trivial⟩

/-- A failing image load is caught and reported as an error. -/
theorem preview_loadfail_caught (ctx : PreviewContext) (path e : String)
    (h1 : get_studio_light_path ctx.studio_lights ctx.shading.studio_light = some path)
    (h2 : ¬(path = "" ∨ path ∉ ctx.path_exists))
    (h3 : loadImage ctx path = Except.error e) :
    (execute ctx).result = ExecResult.CANCELLED
    ∧ (execute ctx).reports = [(ReportLevel.ERROR, "Failed to load image: " ++ e)] := by
  simp only [execute, h1, h3, if_neg h2]
  exact ⟨trivial, trivial⟩

/-- C7 counterexample to the 6-node count: a fully successful concrete run
produces a world whose node graph has 8 nodes, not 6. -/
theorem C7_counterexample :
    (execute previewCtx_ok).result = ExecResult.FINISHED
    ∧ (execute previewCtx_ok).created_world.map (fun w => w.node_tree.nodes.length)
        = some 8
    ∧ (execute previewCtx_ok).created_world.map (fun w => w.node_tree.nodes.length)
        ≠ some 6 := by
  decide

/-- C7 amended: every successful run produces a world wired with the fixed
8-node graph and its 7 fixed links, whose Mix (blur) node carries the
viewport blur factor and whose Mapping node carries the viewport Z rotation,
and assigns that world as the scene world. -/
theorem C7_full_build (ctx : PreviewContext) (path : String) (image : Image)
    (h1 : get_studio_light_path ctx.studio_lights ctx.shading.studio_light = some path)
    (h2 : ¬(path = "" ∨ path ∉ ctx.path_exists))
    (h3 : loadImage ctx path = Except.ok image) :
    (execute ctx).result = ExecResult.FINISHED
    ∧ (execute ctx).created_world = some
        { name := "Preview " ++ ctx.shading.studio_light
          use_nodes := true
          node_tree := { nodes := builtNodes ctx.shading image.name
                         links := builtLinks } }
    ∧ (builtNodes ctx.shading image.name).length = 8
    ∧ builtLinks.length = 7
    ∧ ((builtNodes ctx.shading image.name).get? 5).map ShaderNode.inputDefaults
        = some [(SocketKey.byIndex 0,
                 SockVal.scalar ctx.shading.studiolight_background_blur)]
    ∧ ((builtNodes ctx.shading image.name).get? 4).map ShaderNode.inputDefaults
        = some [(SocketKey.byName "Rotation",
                 SockVal.vec 0 0 ctx.shading.studiolight_rotate_z)]
    ∧ (execute ctx).scene_world = some ("Preview " ++ ctx.shading.studio_light) := by
  simp only [execute, h1, h3, if_neg h2]
  exact ⟨trivial, trivial, rfl, rfl, rfl, rfl, trivial⟩

/-- C7 witness: the amended build property evaluated on a concrete
successful run. -/
theorem C7_witness :
    (execute previewCtx_ok).result = ExecResult.FINISHED
    ∧ (builtNodes previewCtx_ok.shading "forest.exr").length = 8 :=
  ⟨(C7_full_build previewCtx_ok "/lights/forest.exr"
      { name := "forest.exr", filepath := "/lights/forest.exr" }
      rfl (by decide) rfl).1,
   (C7_full_build previewCtx_ok "/lights/forest.exr"
      { name := "forest.exr", filepath := "/lights/forest.exr" }
      rfl (by decide) rfl).2.2.1⟩

/-- C10: when the studio-light path resolves but the image load raises, the
operator returns cancelled, yet the scene world has already been replaced by
the newly created world, which is incompletely configured: its node tree
holds only the bare environment node (no image) and no links. -/
theorem C10_world_swapped_before_load (ctx : PreviewContext) (path e : String)
    (h1 : get_studio_light_path ctx.studio_lights ctx.shading.studio_light = some path)
    (h2 : ¬(path = "" ∨ path ∉ ctx.path_exists))
    (h3 : loadImage ctx path = Except.error e) :
    (execute ctx).result = ExecResult.CANCELLED
    ∧ (execute ctx).scene_world = some ("Preview " ++ ctx.shading.studio_light)
    ∧ (execute ctx).created_world = some
        { name := "Preview " ++ ctx.shading.studio_light
          use_nodes := true
          node_tree := { nodes := [envNodeBare], links := [] } }
    ∧ envNodeBare.image = none := by
  simp only [execute, h1, h3, if_neg h2]
  exact ⟨trivial, trivial, trivial, rfl⟩

/-- C10 witness: a concrete failing load leaves the fresh world assigned. -/
theorem C10_witness :
    (execute previewCtx_loadFail).result = ExecResult.CANCELLED
    ∧ (execute previewCtx_loadFail).scene_world
        = some ("Preview " ++ previewCtx_loadFail.shading.studio_light) :=
  ⟨(C10_world_swapped_before_load previewCtx_loadFail "/lights/forest.exr" "cannot load"
      rfl (by decide) rfl).1,
   (C10_world_swapped_before_load previewCtx_loadFail "/lights/forest.exr" "cannot load"
      rfl (by decide) rfl).2.1⟩

end PreviewWorld

/-- C5 counterexample: an invocation of the focus operator that aborts (no
Graph Editor area) has nevertheless already changed host state: the select
flags of the visible curves differ from before. -/
theorem C5_counterexample :
    (FocusFcurves.execute FocusFcurves.focusCtx_noArea).result = ExecResult.CANCELLED
    ∧ (FocusFcurves.execute FocusFcurves.focusCtx_noArea).visible_after
        ≠ FocusFcurves.focusCtx_noArea.visible_fcurves := by
  decide

/-- C5 amended: every invocation of either operator that returns a cancelled
result has issued at least one report (it reports and stops), but such an
aborted invocation is not atomic: host state may already have been changed
(see the counterexample). -/
theorem C5_cancel_reports :
    (∀ ctx : FocusFcurves.FocusContext,
        (FocusFcurves.execute ctx).result = ExecResult.CANCELLED →
        (FocusFcurves.execute ctx).reports ≠ [])
    ∧ (∀ ctx : PreviewWorld.PreviewContext,
        (PreviewWorld.execute ctx).result = ExecResult.CANCELLED →
        (PreviewWorld.execute ctx).reports ≠ []) :=
  ⟨fun ctx _ => FocusFcurves.focus_always_reports ctx,
   fun ctx _ => PreviewWorld.preview_always_reports ctx⟩

/-- C5 witness: the cancelled no-area run did report. -/
theorem C5_witness :
    (FocusFcurves.execute FocusFcurves.focusCtx_noArea).reports ≠ [] :=
  C5_cancel_reports.1 FocusFcurves.focusCtx_noArea (by decide)

/-- C6 counterexample: when the Graph Editor area has no `WINDOW` region,
the `next(...)` call raises `StopIteration` outside any `try`, so the
exception propagates uncaught out of `execute` instead of being surfaced and
cancelled. -/
theorem C6_counterexample :
    (FocusFcurves.execute FocusFcurves.focusCtx_noWindow).result
      = ExecResult.raised "StopIteration" := by
  decide

/-- C6 amended: exceptions raised inside the `try` blocks (the two graph
operator blocks of the focus operator and the image load of the
preview-world operator) are caught, surfaced as an error report, and the
invocation is cancelled; host calls outside those blocks are not protected
(see the counterexample). -/
theorem C6_try_blocks_catch :
    (∀ (ctx : FocusFcurves.FocusContext) (e : String),
        ctx.selected_editable_fcurves = [] → ctx.graph_ops_error = some e →
        (FocusFcurves.execute ctx).result = ExecResult.CANCELLED
        ∧ (ReportLevel.ERROR, "Failed to call graph operators: " ++ e)
            ∈ (FocusFcurves.execute ctx).reports)
    ∧ (∀ (ctx : FocusFcurves.FocusContext) (e : String),
        ctx.selected_editable_fcurves ≠ [] → ctx.visible_fcurves ≠ [] →
        FocusFcurves.fcurves_to_show ctx.selected_editable_fcurves ctx.visible_fcurves ≠ [] →
        ctx.has_graph_editor_area = true →
        ctx.graph_area_regions.contains "WINDOW" = true →
        ctx.graph_ops_error = some e →
        (FocusFcurves.execute ctx).result = ExecResult.CANCELLED
        ∧ (ReportLevel.ERROR, "Failed to call graph operators: " ++ e)
            ∈ (FocusFcurves.execute ctx).reports)
    ∧ (∀ (ctx : PreviewWorld.PreviewContext) (path e : String),
        PreviewWorld.get_studio_light_path ctx.studio_lights ctx.shading.studio_light
          = some path →
        ¬(path = "" ∨ path ∉ ctx.path_exists) →
        PreviewWorld.loadImage ctx path = Except.error e →
        (PreviewWorld.execute ctx).result = ExecResult.CANCELLED
        ∧ (PreviewWorld.execute ctx).reports
            = [(ReportLevel.ERROR, "Failed to load image: " ++ e)]) :=
  ⟨FocusFcurves.focus_opsfail_caught_empty,
   FocusFcurves.focus_opsfail_caught_full,
   PreviewWorld.preview_loadfail_caught⟩

/-- C6 witness: a concrete caught failure of the reveal-all block. -/
theorem C6_witness :
    (FocusFcurves.execute FocusFcurves.focusCtx_emptySel_opsFail).result
      = ExecResult.CANCELLED
    ∧ (ReportLevel.ERROR, "Failed to call graph operators: boom")
        ∈ (FocusFcurves.execute FocusFcurves.focusCtx_emptySel_opsFail).reports :=
  C6_try_blocks_catch.1 FocusFcurves.focusCtx_emptySel_opsFail "boom" rfl rfl

/-- C8 counterexample: the preview-world operator reports an unresolvable
studio-light path as an ERROR (not a WARNING) before aborting. -/
theorem C8_counterexample :
    (PreviewWorld.execute PreviewWorld.previewCtx_noLight).result = ExecResult.CANCELLED
    ∧ (PreviewWorld.execute PreviewWorld.previewCtx_noLight).reports ≠ []
    ∧ ((PreviewWorld.execute PreviewWorld.previewCtx_noLight).reports.all
        (fun r => r.1 == ReportLevel.ERROR)) = true := by
  decide

/-- C8 amended: a missing Graph Editor area makes the focus operator report
a WARNING and abort; an unresolvable studio-light path makes the
preview-world operator report an ERROR (not a warning) and abort. -/
theorem C8_missing_resource_reports :
    (∀ ctx : FocusFcurves.FocusContext,
        ctx.selected_editable_fcurves ≠ [] → ctx.visible_fcurves ≠ [] →
        FocusFcurves.fcurves_to_show ctx.selected_editable_fcurves ctx.visible_fcurves ≠ [] →
        ctx.has_graph_editor_area = false →
        (FocusFcurves.execute ctx).result = ExecResult.CANCELLED
        ∧ (ReportLevel.WARNING, "No Graph Editor area found")
            ∈ (FocusFcurves.execute ctx).reports)
    ∧ (∀ ctx : PreviewWorld.PreviewContext,
        (∀ p, PreviewWorld.get_studio_light_path ctx.studio_lights
            ctx.shading.studio_light = some p → p = "" ∨ p ∉ ctx.path_exists) →
        (PreviewWorld.execute ctx).result = ExecResult.CANCELLED
        ∧ (PreviewWorld.execute ctx).reports
            = [(ReportLevel.ERROR,
                "Could not find path for studio light: " ++ ctx.shading.studio_light)]) :=
  ⟨FocusFcurves.focus_noarea_warns,
   fun ctx h =>
     ⟨(PreviewWorld.preview_nopath_errors ctx h).1,
      (PreviewWorld.preview_nopath_errors ctx h).2.1⟩⟩

/-- C8 witness: the concrete no-area run reports the warning and aborts. -/
theorem C8_witness :
    (FocusFcurves.execute FocusFcurves.focusCtx_noArea).result = ExecResult.CANCELLED
    ∧ (ReportLevel.WARNING, "No Graph Editor area found")
        ∈ (FocusFcurves.execute FocusFcurves.focusCtx_noArea).reports :=
  C8_missing_resource_reports.1 FocusFcurves.focusCtx_noArea
    (by decide) (by decide) (by decide) rfl
